import Mathlib

/-!
Shallow embedding of the trajectory-rating workflow of
`src/static/js/trajectory_rating.js` (class `TrajectoryRating`), and proofs
settling the specification claims about it.

Modelling conventions:
* The mutable fields of the `TrajectoryRating` object become a Lean record.
  JavaScript `null`/`undefined` values of `currentTrajectoryId` and
  `videoFilename` are modelled with `Option`.
* `ratedTrajectories` is a JavaScript `Set` to which `this.currentTrajectoryId`
  (a number or `null`) is added, so it is modelled as a duplicate-free
  `List (Option ℤ)` with guarded insertion (`setAdd`), `size` being the
  length.
* The progress computation `(size / total) * 100` uses JavaScript number
  semantics where division by zero yields `Infinity` (or `NaN` for `0 / 0`);
  that much is modelled exactly with the sum type `JsNum` over `ℚ`.  The
  finite arithmetic is written with the executable primitives `ratDiv`,
  `ratMul`, `ratAdd` which are proved equal to the field operations of `ℚ`
  (`ratDiv_eq_div`, `ratMul_eq_mul`, `ratAdd_eq_add`).  The claims under
  study only involve exact small values, where binary floating point and
  exact rational arithmetic agree.
* DOM lookups (`document.getElementById`) are modelled by a record of
  booleans saying which elements are present; the purely cosmetic DOM
  updates (star CSS classes, rating-description text, progress-bar width,
  modal animation) carry no session state and are omitted.
* Network interaction is modelled by passing the server outcome as an
  explicit boolean (`true` = `response.ok`; `false` covers both a
  non-success status and a transport failure, which the source treats
  identically through its `try`/`catch`).
-/

deriving instance DecidableEq for Except

namespace AuraAI

/-- Exact division of rationals, written through `Rat.divInt` so that it
evaluates by kernel reduction; equal to `a / b` (`ratDiv_eq_div`). -/
def ratDiv (a b : ℚ) : ℚ := Rat.divInt (a.num * b.den) (b.num * a.den)

/-- Exact multiplication of rationals through `Rat.divInt`; equal to
`a * b` (`ratMul_eq_mul`). -/
def ratMul (a b : ℚ) : ℚ := Rat.divInt (a.num * b.num) ((a.den : ℤ) * (b.den : ℤ))

/-- Exact addition of rationals through `Rat.divInt`; equal to `a + b`
(`ratAdd_eq_add`). -/
def ratAdd (a b : ℚ) : ℚ :=
  Rat.divInt (a.num * b.den + b.num * a.den) ((a.den : ℤ) * (b.den : ℤ))

/-- JavaScript number results relevant to the progress computation: `0 / 0`
is `NaN` and `x / 0` is a signed infinity for `x ≠ 0`. -/
inductive JsNum where
  | nan
  | posInf
  | negInf
  | val (q : ℚ)
deriving DecidableEq

/-- JavaScript division `a / b` for finite operands. -/
def jsDiv (a b : ℚ) : JsNum :=
  if b = 0 then
    if a = 0 then JsNum.nan else if 0 < a then JsNum.posInf else JsNum.negInf
  else JsNum.val (ratDiv a b)

/-- Multiplication of a JavaScript number by a positive finite constant
(used for `* 100`): `NaN` and the infinities are absorbing. -/
def jsMulPos (x : JsNum) (c : ℚ) : JsNum :=
  match x with
  | JsNum.nan => JsNum.nan
  | JsNum.posInf => JsNum.posInf
  | JsNum.negInf => JsNum.negInf
  | JsNum.val q => JsNum.val (ratMul q c)

/-- JavaScript comparison `x >= 100`: false for `NaN`, true for
`Infinity`. -/
def jsGe100 : JsNum → Bool
  | JsNum.nan => false
  | JsNum.posInf => true
  | JsNum.negInf => false
  | JsNum.val q => decide (100 ≤ q)

/-- `Math.round` on a finite number: round half toward positive infinity,
i.e. the floor of `q + 1/2` (`mathRound_eq_floor`). -/
def mathRound (q : ℚ) : ℤ := Rat.floor (ratAdd q (mkRat 1 2))

/-- `Math.round` as applied to the displayed percentage: `NaN` and the
infinities are preserved. -/
def jsRound : JsNum → JsNum
  | JsNum.nan => JsNum.nan
  | JsNum.posInf => JsNum.posInf
  | JsNum.negInf => JsNum.negInf
  | JsNum.val q => JsNum.val (mathRound q)

/-- JavaScript truthiness of `this.videoFilename` (a string or `null`):
`null` and the empty string are falsy. -/
def truthyStr : Option String → Bool
  | none => false
  | some s => decide (s ≠ "")

/-- JavaScript falsiness of `this.currentTrajectoryId` as tested by
`!this.currentTrajectoryId` in `regenerateGif`: both `null` and the valid
index `0` are falsy. -/
def falsyId : Option ℤ → Bool
  | none => true
  | some z => decide (z = 0)

/-- JavaScript addition `this.currentTrajectoryId + direction`
(in `navigateTrajectory`): `null` coerces to `0`. -/
def idPlus : Option ℤ → ℤ → ℤ
  | none, d => d
  | some z, d => z + d

/-- `Set.prototype.add`: insert the element unless already present. -/
def setAdd (x : Option ℤ) (s : List (Option ℤ)) : List (Option ℤ) :=
  if x ∈ s then s else x :: s

/-- The mutable fields of the `TrajectoryRating` object, together with the
`disabled` property of the `submit-rating` button (the only DOM state the
specification's contracts reference). -/
structure TrajectoryRating where
  currentRating : ℤ
  currentTrajectoryId : Option ℤ
  videoFilename : Option String
  totalTrajectories : ℤ
  ratedTrajectories : List (Option ℤ)
  smoothnessFactor : ℚ
  submitDisabled : Bool
deriving DecidableEq

/-- The constructor: `currentRating = 0`, `currentTrajectoryId = null`,
`videoFilename = null`, `totalTrajectories = 0`, `ratedTrajectories` an
empty `Set`, `smoothnessFactor = 0.1`; the submit button starts disabled. -/
def TrajectoryRating.start : TrajectoryRating :=
  { currentRating := 0
    currentTrajectoryId := none
    videoFilename := none
    totalTrajectories := 0
    ratedTrajectories := []
    smoothnessFactor := mkRat 1 10
    submitDisabled := true }

/-- Which of the DOM elements consulted by the modelled operations are
present on the page. -/
structure DomFlags where
  progressElems : Bool
  completionModal : Bool
  finalStats : Bool
  gifImg : Bool
deriving DecidableEq

/-- The intended rating page, where all the elements exist. -/
def allDom : DomFlags := ⟨true, true, true, true⟩

/-- `selectRating`: stores `parseInt(rating)` into `this.currentRating` and
sets the submit button's `disabled` to `false`.  The argument is the parsed
integer value of the clicked star's `data-rating` attribute.  The source
performs no range check on it.  Star CSS classes and the description text
are cosmetic and omitted. -/
def selectRating (st : TrajectoryRating) (rating : ℤ) : TrajectoryRating :=
  { st with currentRating := rating, submitDisabled := false }

/-- `updateSmoothness`: stores `parseFloat(value)` into
`this.smoothnessFactor`. -/
def updateSmoothness (st : TrajectoryRating) (v : ℚ) : TrajectoryRating :=
  { st with smoothnessFactor := v }

/-- `setVideoInfo`: records the video filename and the total trajectory
count. -/
def setVideoInfo (st : TrajectoryRating) (filename : String) (total : ℤ) :
    TrajectoryRating :=
  { st with videoFilename := some filename, totalTrajectories := total }

/-- `setCurrentTrajectory`: sets `this.currentTrajectoryId`, resets
`this.currentRating` to `0`, and disables the submit button.  The star,
comment and navigation-button resets are cosmetic and omitted. -/
def setCurrentTrajectory (st : TrajectoryRating) (id : ℤ) : TrajectoryRating :=
  { st with currentTrajectoryId := some id, currentRating := 0,
            submitDisabled := true }

/-- The `DOMContentLoaded` initialisation when the hidden fields are
present: construct the object, then `setVideoInfo`, then
`setCurrentTrajectory`.  Every full page navigation re-runs this, so the
`ratedTrajectories` set starts empty on every page load. -/
def pageLoad (filename : String) (total id : ℤ) : TrajectoryRating :=
  setCurrentTrajectory (setVideoInfo TrajectoryRating.start filename total) id

/-- Exceptions the modelled code can raise.  `calculateAverageRating` is
called at three places (`populateFinalStats` and twice in `exportResults`)
but is defined nowhere in the repository, so invoking it raises a
JavaScript `TypeError`. -/
inductive JsError where
  | undefinedCalculateAverageRating
deriving DecidableEq

/-- `populateFinalStats`: if the `final-stats` element is present, the body
evaluates `this.calculateAverageRating()`.  That method does not exist
anywhere in the repository's sources, so in JavaScript the call raises
`TypeError: this.calculateAverageRating is not a function` before any
statistic is produced.  If the element is absent, the body is skipped. -/
def populateFinalStats (_st : TrajectoryRating) (dom : DomFlags) :
    Except JsError Unit :=
  if dom.finalStats then Except.error JsError.undefinedCalculateAverageRating
  else Except.ok ()

/-- `getQualityLevel`: the fixed thresholds mapping an average rating to a
quality label (`4.5`, `4.0`, `3.0`, `2.0`). -/
def getQualityLevel (averageRating : ℚ) : String :=
  if mkRat 9 2 ≤ averageRating then "Отличное качество 🏆"
  else if 4 ≤ averageRating then "Хорошее качество 👍"
  else if 3 ≤ averageRating then "Удовлетворительное качество ✅"
  else if 2 ≤ averageRating then "Требует улучшения ⚠️"
  else "Низкое качество ❌"

/-- `showCompletionModal`: if the modal element is present, display it, run
`populateFinalStats` (whose `TypeError` propagates), and only then show
the congratulation notice.  Returns whether that notice was shown. -/
def showCompletionModal (st : TrajectoryRating) (dom : DomFlags) :
    Except JsError Bool :=
  if dom.completionModal then
    match populateFinalStats st dom with
    | Except.error e => Except.error e
    | Except.ok _ => Except.ok true
  else Except.ok false

/-- Outcome of one `updateProgress` call: the rounded percentage written to
the `progress-percent` element (written before the completion check),
whether `showCompletionModal` was invoked, and the exception it raised, if
any. -/
structure ProgressResult where
  displayedPercent : Option JsNum
  completionInvoked : Bool
  thrown : Option JsError
deriving DecidableEq

/-- The raw progress value
`(this.ratedTrajectories.size / this.totalTrajectories) * 100`. -/
def jsProgress (st : TrajectoryRating) : JsNum :=
  jsMulPos
    (jsDiv (st.ratedTrajectories.length : ℚ) (st.totalTrajectories : ℚ)) 100

/-- `updateProgress`: when both progress elements are present, compute the
progress, display its rounded value, and invoke `showCompletionModal`
whenever `progress >= 100` — on every call, with no guard remembering that
completion was already handled. -/
def updateProgress (st : TrajectoryRating) (dom : DomFlags) : ProgressResult :=
  if dom.progressElems then
    let progress := jsProgress st
    if jsGe100 progress then
      match showCompletionModal st dom with
      | Except.error e =>
          { displayedPercent := some (jsRound progress)
            completionInvoked := true
            thrown := some e }
      | Except.ok _ =>
          { displayedPercent := some (jsRound progress)
            completionInvoked := true
            thrown := none }
    else
      { displayedPercent := some (jsRound progress)
        completionInvoked := false
        thrown := none }
  else
    { displayedPercent := none, completionInvoked := false, thrown := none }

/-- The JSON body of the `POST /api/rate-trajectory` request. -/
structure RatingRequest where
  video_filename : Option String
  trajectory_id : Option ℤ
  rating : ℤ
  comment : String
  smoothness_factor : ℚ
deriving DecidableEq

/-- Kinds of transient notices shown by `showNotification`. -/
inductive NoticeKind where
  | success
  | failure
  | info
deriving DecidableEq

/-- The guard at the top of `submitRating`:
`!this.currentRating || this.currentTrajectoryId === null ||
this.currentTrajectoryId === undefined`.  It passes whenever the rating is
a nonzero number and the trajectory id is non-null; `this.videoFilename`
is not consulted, and negative ids pass. -/
def submitChecksPass (st : TrajectoryRating) : Bool :=
  decide (st.currentRating ≠ 0) && st.currentTrajectoryId.isSome

/-- The request body built by `submitRating`, reading every field from the
live object at request time. -/
def submitPayload (st : TrajectoryRating) (comment : String) : RatingRequest :=
  { video_filename := st.videoFilename
    trajectory_id := st.currentTrajectoryId
    rating := st.currentRating
    comment := comment
    smoothness_factor := st.smoothnessFactor }

/-- What the response continuation of `submitRating` produced. -/
structure ResponseOutcome where
  state : TrajectoryRating
  notices : List (String × NoticeKind)
  progress : Option ProgressResult
  navigateScheduled : Bool
deriving DecidableEq

/-- The part of `submitRating` that runs when the `fetch` settles, applied
to the state of the object at response time (`this` is read again here, not
captured at request time).  On `response.ok`: add `this.currentTrajectoryId`
to `ratedTrajectories`, show the success notice, and run `updateProgress`;
an exception thrown there (the completion modal's `TypeError`) lands in the
`catch`, which shows the error notice, and the `setTimeout` auto-advance is
then never scheduled.  On a non-ok response or transport failure: the
`catch` shows the error notice and the state is untouched. -/
def submitResponse (st : TrajectoryRating) (dom : DomFlags) (ok : Bool) :
    ResponseOutcome :=
  if ok then
    let st2 : TrajectoryRating :=
      { st with ratedTrajectories :=
          setAdd st.currentTrajectoryId st.ratedTrajectories }
    let pr := updateProgress st2 dom
    match pr.thrown with
    | some _ =>
        { state := st2
          notices := [("✅ Оценка сохранена!", NoticeKind.success),
                      ("❌ Ошибка сохранения оценки", NoticeKind.failure)]
          progress := some pr
          navigateScheduled := false }
    | none =>
        { state := st2
          notices := [("✅ Оценка сохранена!", NoticeKind.success)]
          progress := some pr
          navigateScheduled := true }
  else
    { state := st
      notices := [("❌ Ошибка сохранения оценки", NoticeKind.failure)]
      progress := none
      navigateScheduled := false }

/-- Everything one `submitRating` call produced. -/
structure SubmitResult where
  state : TrajectoryRating
  request : Option RatingRequest
  alerted : Bool
  notices : List (String × NoticeKind)
  progress : Option ProgressResult
  navigateScheduled : Bool
deriving DecidableEq

/-- `submitRating`: if the guard fails, show the validation `alert` and
return without any network call; otherwise send the request and run the
response continuation.  The result of the in-between `loadStatistics` call
is display-only and omitted. -/
def submitRating (st : TrajectoryRating) (dom : DomFlags) (comment : String)
    (ok : Bool) : SubmitResult :=
  if submitChecksPass st then
    let r := submitResponse st dom ok
    { state := r.state
      request := some (submitPayload st comment)
      alerted := false
      notices := r.notices
      progress := r.progress
      navigateScheduled := r.navigateScheduled }
  else
    { state := st
      request := none
      alerted := true
      notices := []
      progress := none
      navigateScheduled := false }

/-- The observable outcome of `navigateTrajectory`. -/
inductive NavResult where
  | silent
  | firstNotice
  | lastNotice
  | navigate (filename : String) (idx : ℤ)
deriving DecidableEq

/-- `navigateTrajectory(direction)`: return silently when
`this.videoFilename` is falsy; otherwise compute
`newTrajectoryId = currentTrajectoryId + direction`, emit the boundary
notices at `newTrajectoryId < 0` and `newTrajectoryId >= totalTrajectories`,
and otherwise perform the full page navigation to the new trajectory.  No
field of the object is mutated on any path. -/
def navigateTrajectory (st : TrajectoryRating) (direction : ℤ) : NavResult :=
  if truthyStr st.videoFilename then
    let newId := idPlus st.currentTrajectoryId direction
    if newId < 0 then NavResult.firstNotice
    else if st.totalTrajectories ≤ newId then NavResult.lastNotice
    else NavResult.navigate (st.videoFilename.getD "") newId
  else NavResult.silent

/-- The JSON body of the `POST /api/regenerate-gif` request. -/
structure RegenRequest where
  video_filename : Option String
  trajectory_id : Option ℤ
  smoothness_factor : ℚ
deriving DecidableEq

/-- The observable outcome of `regenerateGif`. -/
structure RegenResult where
  state : TrajectoryRating
  request : Option RegenRequest
  gifSrcUpdated : Bool
  notices : List (String × NoticeKind)
deriving DecidableEq

/-- `regenerateGif`: return immediately when `!this.currentTrajectoryId` is
true — which holds for `null` and for the index `0`.  Otherwise show the
info notice, send the request; on success swap the `trajectory-gif` image
source (when the element and the returned path exist), on failure show the
error notice.  No field of the object is mutated on any path. -/
def regenerateGif (st : TrajectoryRating) (dom : DomFlags) (ok : Bool)
    (gifPath : Option String) : RegenResult :=
  if falsyId st.currentTrajectoryId then
    { state := st, request := none, gifSrcUpdated := false, notices := [] }
  else
    let req : RegenRequest :=
      { video_filename := st.videoFilename
        trajectory_id := st.currentTrajectoryId
        smoothness_factor := st.smoothnessFactor }
    if ok then
      { state := st
        request := some req
        gifSrcUpdated := dom.gifImg && gifPath.isSome
        notices := [("🔄 Создаем новый GIF...", NoticeKind.info),
                    ("✅ GIF обновлен!", NoticeKind.success)] }
    else
      { state := st
        request := some req
        gifSrcUpdated := false
        notices := [("🔄 Создаем новый GIF...", NoticeKind.info),
                    ("❌ Ошибка создания GIF", NoticeKind.failure)] }

/-- One accepted rating of trajectory `idx` on a freshly loaded page: load
the page for `(filename, total, idx)`, select `rating`, submit with a
successful server response. -/
def rateStep (filename : String) (total idx rating : ℤ) : SubmitResult :=
  submitRating (selectRating (pageLoad filename total idx) rating) allDom "" true

/-- The session state after the lone trajectory of a one-trajectory video has
been rated and accepted (the only way a session on a standard page reaches
100% progress). -/
def fullSession : TrajectoryRating := (rateStep "video.mp4" 1 0 5).state

/-- The session state at the time a rating request for trajectory `1` of a
five-trajectory video is sent. -/
def c9RequestState : TrajectoryRating := selectRating (pageLoad "video.mp4" 5 1) 4

/-- The session state at the time the response to that request arrives, the
current trajectory id having changed to `2` in between. -/
def c9ResponseState : TrajectoryRating :=
  { c9RequestState with currentTrajectoryId := some 2 }

/- ===================== Theorems ===================== -/

theorem ratDiv_eq_div (a b : ℚ) : ratDiv a b = a / b := by
  rw [ratDiv, Rat.div_def']
  congr 1
  exact Int.mul_comm _ _

theorem ratMul_eq_mul (a b : ℚ) : ratMul a b = a * b := by
  rw [ratMul]
  conv_rhs => rw [← Rat.num_divInt_den a, ← Rat.num_divInt_den b]
  rw [Rat.divInt_mul_divInt']

theorem ratAdd_eq_add (a b : ℚ) : ratAdd a b = a + b := by
  rw [ratAdd]
  conv_rhs => rw [← Rat.num_divInt_den a, ← Rat.num_divInt_den b]
  rw [Rat.divInt_add_divInt _ _ (by exact_mod_cast Rat.den_ne_zero a)
    (by exact_mod_cast Rat.den_ne_zero b)]

theorem mathRound_eq_floor (q : ℚ) : mathRound q = ⌊q + 1 / 2⌋ := by
  have h2 : (mkRat 1 2 : ℚ) = 1 / 2 := by
    rw [Rat.mkRat_eq_div]
    norm_num
  rw [mathRound, ratAdd_eq_add, h2, Rat.floor_def', Rat.floor_def]

theorem jsProgress_eq_val (st : TrajectoryRating)
    (h : st.totalTrajectories ≠ 0) :
    jsProgress st = JsNum.val
      ((st.ratedTrajectories.length : ℚ) / (st.totalTrajectories : ℚ) * 100) := by
  have ht : ((st.totalTrajectories : ℤ) : ℚ) ≠ 0 := Int.cast_ne_zero.mpr h
  rw [jsProgress, jsDiv, if_neg ht, jsMulPos, ratMul_eq_mul, ratDiv_eq_div]

theorem jsProgress_of_total_zero_rated_zero (st : TrajectoryRating)
    (h0 : st.totalTrajectories = 0) (hc : st.ratedTrajectories.length = 0) :
    jsProgress st = JsNum.nan := by
  rw [jsProgress, h0, hc, jsDiv, if_pos (by norm_num), if_pos (by norm_num)]
  rfl

theorem jsProgress_of_total_zero_rated_pos (st : TrajectoryRating)
    (h0 : st.totalTrajectories = 0) (hc : 0 < st.ratedTrajectories.length) :
    jsProgress st = JsNum.posInf := by
  have ha : (0 : ℚ) < (st.ratedTrajectories.length : ℚ) := by exact_mod_cast hc
  rw [jsProgress, h0, jsDiv, if_pos (by norm_num), if_neg ha.ne', if_pos ha]
  rfl

theorem updateProgress_displayed (st : TrajectoryRating) (dom : DomFlags)
    (hdom : dom.progressElems = true) :
    (updateProgress st dom).displayedPercent = some (jsRound (jsProgress st)) := by
  rw [updateProgress, if_pos hdom]
  split
  all_goals
    dsimp only
    split <;> rfl

theorem updateProgress_completion (st : TrajectoryRating) (dom : DomFlags)
    (hdom : dom.progressElems = true) :
    (updateProgress st dom).completionInvoked = jsGe100 (jsProgress st) := by
  rw [updateProgress, if_pos hdom]
  split
  all_goals
    dsimp only
    split
    · next h => simp [h]
    · next h =>
        simp only [Bool.not_eq_true] at h
        simp [h]

theorem submitResponse_ok_state (st : TrajectoryRating) (dom : DomFlags) :
    (submitResponse st dom true).state
      = { st with ratedTrajectories :=
            setAdd st.currentTrajectoryId st.ratedTrajectories } := by
  rw [submitResponse, if_pos rfl]
  dsimp only
  split <;> rfl

/-- C1: the specified completion scenario (three trajectories, accepted
ratings 5, 3, 4 at indices 0, 1, 2) cannot yield `averageRating = 4.0` and
`qualityLevel = "good"` in the code.  Each accepted submission stores only
the trajectory index in the `ratedTrajectories` set — no `(index, rating)`
pair is appended to any session list — and each auto-advance navigation is
a full page reload that resets the set, so after the third accepted
submission the displayed progress is 33%, completion never fires, and even
where completion is reached `populateFinalStats` raises a `TypeError`
because `calculateAverageRating` is defined nowhere in the repository. -/
theorem c1_scenario_retains_no_ratings_and_never_completes :
    ((rateStep "video.mp4" 3 0 5).progress
      = some ⟨some (JsNum.val 33), false, none⟩) ∧
    (navigateTrajectory (rateStep "video.mp4" 3 0 5).state 1
      = NavResult.navigate "video.mp4" 1) ∧
    ((rateStep "video.mp4" 3 1 3).progress
      = some ⟨some (JsNum.val 33), false, none⟩) ∧
    (navigateTrajectory (rateStep "video.mp4" 3 1 3).state 1
      = NavResult.navigate "video.mp4" 2) ∧
    ((rateStep "video.mp4" 3 2 4).progress
      = some ⟨some (JsNum.val 33), false, none⟩) ∧
    ((rateStep "video.mp4" 3 2 4).state.ratedTrajectories = [some 2]) ∧
    (populateFinalStats (rateStep "video.mp4" 3 2 4).state allDom
      = Except.error JsError.undefinedCalculateAverageRating) := by
  decide

/-- C2 counterexample: with one trajectory, the first accepted submission
crosses into completion and invokes the completion handler; a second
accepted submission of the same index, while the session is already
complete (`ratedTrajectories.length = totalTrajectories = 1`), recomputes
the progress and invokes the handler again — refuting the claim that
recomputation while complete does not re-invoke it. -/
theorem c2_counterexample_handler_reinvoked :
    ((rateStep "video.mp4" 1 0 5).progress.map ProgressResult.completionInvoked
      = some true) ∧
    (fullSession.ratedTrajectories.length = 1) ∧
    (fullSession.totalTrajectories = 1) ∧
    ((submitRating (selectRating fullSession 4) allDom "" true).progress.map
        ProgressResult.completionInvoked = some true) := by
  decide

/-- C2 amended: whenever the progress elements exist and
`ratedTrajectories.length = totalTrajectories > 0`, `updateProgress`
invokes the completion handler — on every such call, since no flag records
that completion was already handled, so each recomputation while complete
re-invokes it. -/
theorem c2_amended_handler_invoked_every_recomputation
    (st : TrajectoryRating) (dom : DomFlags)
    (hdom : dom.progressElems = true)
    (hpos : 0 < st.totalTrajectories)
    (hfull : (st.ratedTrajectories.length : ℤ) = st.totalTrajectories) :
    (updateProgress st dom).completionInvoked = true := by
  have hne : st.totalTrajectories ≠ 0 := by omega
  have hq : (st.ratedTrajectories.length : ℚ) / (st.totalTrajectories : ℚ) * 100
      = 100 := by
    have h1 : (st.ratedTrajectories.length : ℚ) = (st.totalTrajectories : ℚ) := by
      exact_mod_cast hfull
    rw [h1, div_self (Int.cast_ne_zero.mpr hne), one_mul]
  rw [updateProgress_completion st dom hdom, jsProgress_eq_val st hne, hq]
  simp [jsGe100]

theorem c2_amended_handler_invoked_witness :
    allDom.progressElems = true ∧
    (0 : ℤ) < fullSession.totalTrajectories ∧
    (fullSession.ratedTrajectories.length : ℤ) = fullSession.totalTrajectories ∧
    (updateProgress fullSession allDom).completionInvoked = true :=
  ⟨rfl, by decide, by decide,
    c2_amended_handler_invoked_every_recomputation fullSession allDom rfl
      (by decide) (by decide)⟩

/-- C3 counterexample: the guard of `submitRating` never consults
`videoFilename` and never checks the sign of the index, so a submission
with `videoFilename` unset (and one with index `-1`) still issues the
network request — refuting the claim that a missing `videoId` fails fast
with no network call. -/
theorem c3_counterexample_no_videoId_check :
    ((submitRating (selectRating (setCurrentTrajectory TrajectoryRating.start 0) 5)
        allDom "" true).request
      = some ⟨none, some 0, 5, "", mkRat 1 10⟩) ∧
    ((submitRating (selectRating (setCurrentTrajectory
        (setVideoInfo TrajectoryRating.start "video.mp4" 3) (-1)) 5)
        allDom "" true).request
      = some ⟨some "video.mp4", some (-1), 5, "", mkRat 1 10⟩) := by
  decide

/-- C3 amended: `submitRating` checks, before any network interaction, only
that `pendingRating` is set (nonzero) and that `currentIndex` is non-null;
when that check fails it issues no network call, surfaces the local
validation alert, and leaves the state — in particular `ratedSet` —
unchanged.  `videoId` and the sign of the index are not checked. -/
theorem c3_amended_failfast (st : TrajectoryRating) (dom : DomFlags)
    (comment : String) (ok : Bool) (h : submitChecksPass st = false) :
    (submitRating st dom comment ok).request = none ∧
    (submitRating st dom comment ok).alerted = true ∧
    (submitRating st dom comment ok).state = st := by
  simp [submitRating, h]

theorem c3_amended_failfast_witness :
    submitChecksPass TrajectoryRating.start = false ∧
    ((submitRating TrajectoryRating.start allDom "" true).request = none ∧
     (submitRating TrajectoryRating.start allDom "" true).alerted = true ∧
     (submitRating TrajectoryRating.start allDom "" true).state
       = TrajectoryRating.start) :=
  ⟨by decide, c3_amended_failfast TrajectoryRating.start allDom "" true (by decide)⟩

/-- C4 counterexample: with `totalTrajectories = 0` and nothing rated the
computed progress is `NaN` — displayed as `NaN%`, not `0` — and with
`totalTrajectories = 0` and a nonempty `ratedTrajectories` the progress is
`Infinity`, which does trigger the completion handler; both refute the
claim that the `totalTrajectories = 0` case is defined as `0` with no
completion trigger. -/
theorem c4_counterexample_total_zero :
    ((updateProgress TrajectoryRating.start allDom).displayedPercent
      = some JsNum.nan) ∧
    ((updateProgress TrajectoryRating.start allDom).displayedPercent
      ≠ some (JsNum.val 0)) ∧
    ((updateProgress { TrajectoryRating.start with ratedTrajectories := [some 0] }
        allDom).completionInvoked = true) := by
  decide

/-- C4 amended: when the progress elements exist, the displayed percentage
equals `round(100 * ratedSet.size / totalTrajectories)` whenever
`totalTrajectories > 0`; when `totalTrajectories = 0` the computed progress
is `NaN` (not `0`) with no completion trigger as long as `ratedSet` is
empty, but is `Infinity` — triggering completion — if `ratedSet` is
nonempty. -/
theorem c4_amended_progress_formula (st : TrajectoryRating) (dom : DomFlags)
    (hdom : dom.progressElems = true) :
    (0 < st.totalTrajectories →
      (updateProgress st dom).displayedPercent
        = some (JsNum.val (⌊(st.ratedTrajectories.length : ℚ)
            / (st.totalTrajectories : ℚ) * 100 + 1 / 2⌋ : ℤ))) ∧
    (st.totalTrajectories = 0 → st.ratedTrajectories.length = 0 →
      (updateProgress st dom).displayedPercent = some JsNum.nan ∧
      (updateProgress st dom).completionInvoked = false) ∧
    (st.totalTrajectories = 0 → 0 < st.ratedTrajectories.length →
      (updateProgress st dom).completionInvoked = true) := by
  refine ⟨fun hpos => ?_, fun h0 hc => ⟨?_, ?_⟩, fun h0 hc => ?_⟩
  · rw [updateProgress_displayed st dom hdom, jsProgress_eq_val st (by omega)]
    rw [jsRound, mathRound_eq_floor]
  · rw [updateProgress_displayed st dom hdom,
      jsProgress_of_total_zero_rated_zero st h0 hc]
    rfl
  · rw [updateProgress_completion st dom hdom,
      jsProgress_of_total_zero_rated_zero st h0 hc]
    rfl
  · rw [updateProgress_completion st dom hdom,
      jsProgress_of_total_zero_rated_pos st h0 hc]
    rfl

theorem c4_amended_progress_formula_witness :
    allDom.progressElems = true ∧
    ((0 < TrajectoryRating.start.totalTrajectories →
      (updateProgress TrajectoryRating.start allDom).displayedPercent
        = some (JsNum.val (⌊(TrajectoryRating.start.ratedTrajectories.length : ℚ)
            / (TrajectoryRating.start.totalTrajectories : ℚ) * 100 + 1 / 2⌋ : ℤ))) ∧
    (TrajectoryRating.start.totalTrajectories = 0 →
      TrajectoryRating.start.ratedTrajectories.length = 0 →
      (updateProgress TrajectoryRating.start allDom).displayedPercent
        = some JsNum.nan ∧
      (updateProgress TrajectoryRating.start allDom).completionInvoked = false) ∧
    (TrajectoryRating.start.totalTrajectories = 0 →
      0 < TrajectoryRating.start.ratedTrajectories.length →
      (updateProgress TrajectoryRating.start allDom).completionInvoked = true)) :=
  ⟨rfl, c4_amended_progress_formula TrajectoryRating.start allDom rfl⟩

/-- C5: when the guard passes and the server rejects the submission (or the
transport fails), `submitRating` surfaces the error notice and leaves the
state unchanged — `ratedTrajectories` does not gain the index and
`currentRating` keeps the chosen value — and a subsequent successful retry
of the same state conses the index onto `ratedTrajectories` exactly once
(its size grows by exactly one). -/
theorem c5_failed_submit_preserves_state_retry_adds_once
    (st : TrajectoryRating) (dom : DomFlags) (comment : String)
    (hchecks : submitChecksPass st = true)
    (hnew : st.currentTrajectoryId ∉ st.ratedTrajectories) :
    (submitRating st dom comment false).state = st ∧
    (submitRating st dom comment false).request = some (submitPayload st comment) ∧
    (submitRating st dom comment false).notices
      = [("❌ Ошибка сохранения оценки", NoticeKind.failure)] ∧
    (submitRating st dom comment true).state.ratedTrajectories
      = st.currentTrajectoryId :: st.ratedTrajectories ∧
    (submitRating st dom comment true).state.ratedTrajectories.length
      = st.ratedTrajectories.length + 1 := by
  have hok : (submitRating st dom comment true).state
      = (submitResponse st dom true).state := by
    simp [submitRating, hchecks]
  have hadd : (submitRating st dom comment true).state.ratedTrajectories
      = st.currentTrajectoryId :: st.ratedTrajectories := by
    rw [hok, submitResponse_ok_state, setAdd, if_neg hnew]
  refine ⟨?_, ?_, ?_, hadd, ?_⟩
  · simp [submitRating, hchecks, submitResponse]
  · simp [submitRating, hchecks]
  · simp [submitRating, hchecks, submitResponse]
  · rw [hadd, List.length_cons]

theorem c5_failed_submit_witness :
    submitChecksPass (selectRating (pageLoad "video.mp4" 3 1) 4) = true ∧
    (selectRating (pageLoad "video.mp4" 3 1) 4).currentTrajectoryId
      ∉ (selectRating (pageLoad "video.mp4" 3 1) 4).ratedTrajectories ∧
    ((submitRating (selectRating (pageLoad "video.mp4" 3 1) 4) allDom "" false).state
        = selectRating (pageLoad "video.mp4" 3 1) 4 ∧
     (submitRating (selectRating (pageLoad "video.mp4" 3 1) 4) allDom "" false).request
        = some (submitPayload (selectRating (pageLoad "video.mp4" 3 1) 4) "") ∧
     (submitRating (selectRating (pageLoad "video.mp4" 3 1) 4) allDom "" false).notices
        = [("❌ Ошибка сохранения оценки", NoticeKind.failure)] ∧
     (submitRating (selectRating (pageLoad "video.mp4" 3 1) 4) allDom "" true).state.ratedTrajectories
        = (selectRating (pageLoad "video.mp4" 3 1) 4).currentTrajectoryId
            :: (selectRating (pageLoad "video.mp4" 3 1) 4).ratedTrajectories ∧
     (submitRating (selectRating (pageLoad "video.mp4" 3 1) 4) allDom "" true).state.ratedTrajectories.length
        = (selectRating (pageLoad "video.mp4" 3 1) 4).ratedTrajectories.length + 1) :=
  ⟨by decide, by decide,
    c5_failed_submit_preserves_state_retry_adds_once
      (selectRating (pageLoad "video.mp4" 3 1) 4) allDom "" (by decide) (by decide)⟩

/-- C6: the guard `!this.currentTrajectoryId` of `regenerateGif` treats the
defined index `0` like `null`, so at trajectory `0` — even with a rating
already chosen — the operation silently returns without issuing any
regeneration request or notice, contradicting the claim (and the sibling
guard in `submitRating`, which carefully distinguishes `0` from
`null`/`undefined`); at a nonzero index the request is issued, and on
every path the session state — in particular `ratedTrajectories` and
`currentRating` — is unmutated. -/
theorem c6_regenerate_noop_at_index_zero :
    (∀ (st : TrajectoryRating) (dom : DomFlags) (ok : Bool) (p : Option String),
      (regenerateGif st dom ok p).state = st) ∧
    ((regenerateGif (selectRating (pageLoad "video.mp4" 3 0) 4) allDom true
        (some "traj0.gif")).request = none) ∧
    ((regenerateGif (selectRating (pageLoad "video.mp4" 3 0) 4) allDom true
        (some "traj0.gif")).notices = []) ∧
    ((regenerateGif (pageLoad "video.mp4" 3 1) allDom true (some "traj1.gif")).request
      = some ⟨some "video.mp4", some 1, mkRat 1 10⟩) ∧
    ((regenerateGif (updateSmoothness (pageLoad "video.mp4" 3 1) (mkRat 1 2))
        allDom true (some "traj1.gif")).request
      = some ⟨some "video.mp4", some 1, mkRat 1 2⟩) := by
  refine ⟨fun st dom ok p => ?_, by decide, by decide, by decide, by decide⟩
  rw [regenerateGif]
  split
  · rfl
  · dsimp only
    split <;> rfl

/-- C7: with the video filename set and a defined current index,
`navigateTrajectory` emits only the "first trajectory" notice when the
target index would be negative, only the "last trajectory" notice when it
would reach `totalTrajectories` or beyond, and otherwise navigates to
`currentIndex + direction`; the session state is never mutated. -/
theorem c7_navigation_boundaries (st : TrajectoryRating) (i d : ℤ)
    (hv : truthyStr st.videoFilename = true)
    (hid : st.currentTrajectoryId = some i) :
    (i + d < 0 → navigateTrajectory st d = NavResult.firstNotice) ∧
    (0 ≤ i + d → st.totalTrajectories ≤ i + d →
      navigateTrajectory st d = NavResult.lastNotice) ∧
    (0 ≤ i + d → i + d < st.totalTrajectories →
      navigateTrajectory st d = NavResult.navigate (st.videoFilename.getD "") (i + d)) := by
  have hnav : navigateTrajectory st d
      = (if i + d < 0 then NavResult.firstNotice
        else if st.totalTrajectories ≤ i + d then NavResult.lastNotice
        else NavResult.navigate (st.videoFilename.getD "") (i + d)) := by
    rw [navigateTrajectory, if_pos hv]
    dsimp only
    rw [hid]
    rfl
  refine ⟨fun h => ?_, fun h1 h2 => ?_, fun h1 h2 => ?_⟩ <;> rw [hnav]
  · rw [if_pos h]
  · rw [if_neg (by omega), if_pos h2]
  · rw [if_neg (by omega), if_neg (by omega)]

theorem c7_navigation_boundaries_witness :
    truthyStr (pageLoad "video.mp4" 3 0).videoFilename = true ∧
    (pageLoad "video.mp4" 3 0).currentTrajectoryId = some 0 ∧
    ((0 + (-1 : ℤ) < 0 →
      navigateTrajectory (pageLoad "video.mp4" 3 0) (-1) = NavResult.firstNotice) ∧
    (0 ≤ 0 + (-1 : ℤ) → (pageLoad "video.mp4" 3 0).totalTrajectories ≤ 0 + (-1 : ℤ) →
      navigateTrajectory (pageLoad "video.mp4" 3 0) (-1) = NavResult.lastNotice) ∧
    (0 ≤ 0 + (-1 : ℤ) → 0 + (-1 : ℤ) < (pageLoad "video.mp4" 3 0).totalTrajectories →
      navigateTrajectory (pageLoad "video.mp4" 3 0) (-1)
        = NavResult.navigate ((pageLoad "video.mp4" 3 0).videoFilename.getD "")
            (0 + (-1 : ℤ)))) :=
  ⟨by decide, by decide,
    c7_navigation_boundaries (pageLoad "video.mp4" 3 0) 0 (-1) (by decide) (by decide)⟩

/-- C8 counterexample: `selectRating` performs no range validation: the
out-of-range rating `7` is accepted — stored into `currentRating` and the
submit action enabled — refuting the claim that only integers in `1..5`
are accepted. -/
theorem c8_counterexample_out_of_range_accepted :
    ((selectRating (pageLoad "video.mp4" 3 0) 7).currentRating = 7) ∧
    ((selectRating (pageLoad "video.mp4" 3 0) 7).submitDisabled = false) ∧
    ¬((1 : ℤ) ≤ 7 ∧ (7 : ℤ) ≤ 5) := by
  decide

/-- C8 amended: `selectRating` stores the parsed integer argument into
`pendingRating` unconditionally — the page offers only the star values
`1..5`, but the operation itself validates nothing — and as a side effect
enables the submit action that was disabled while `pendingRating` was
unset. -/
theorem c8_amended_select_stores_unvalidated (st : TrajectoryRating) (r : ℤ) :
    (selectRating st r).currentRating = r ∧
    (selectRating st r).submitDisabled = false :=
  ⟨rfl, rfl⟩

/-- C9 counterexample: a submission request issued at trajectory index `1`
captures `1` in its payload, but when its success response arrives after
`currentTrajectoryId` has changed to `2`, the handler adds `2` — the live
index at response time — to `ratedTrajectories`, and the original index
`1` is not recorded; this refutes the claim that the rating is recorded
against the request-time index. -/
theorem c9_counterexample_response_time_index_recorded :
    ((submitPayload c9RequestState "").trajectory_id = some 1) ∧
    ((submitResponse c9ResponseState allDom true).state.ratedTrajectories
      = [some 2]) ∧
    (some 1 ∉ (submitResponse c9ResponseState allDom true).state.ratedTrajectories) := by
  decide

/-- C9 amended: the request payload captures the index by value at request
time, but the success continuation reads `currentTrajectoryId` from the
mutable session state at response time and adds that value to
`ratedTrajectories`; a late success is therefore recorded against the
response-time index, not the request-time one. -/
theorem c9_amended_success_records_live_index
    (stAtResponse : TrajectoryRating) (dom : DomFlags) :
    (submitResponse stAtResponse dom true).state.ratedTrajectories
      = setAdd stAtResponse.currentTrajectoryId stAtResponse.ratedTrajectories := by
  rw [submitResponse_ok_state]

/-- C10: when `videoFilename` is unset (null or empty), `navigateTrajectory`
returns before computing anything: no transition and no notice, not even
the boundary notices, for every direction. -/
theorem c10_navigate_silent_when_video_unset (st : TrajectoryRating) (d : ℤ)
    (h : truthyStr st.videoFilename = false) :
    navigateTrajectory st d = NavResult.silent := by
  rw [navigateTrajectory, if_neg]
  rw [h]
  exact Bool.false_ne_true

theorem c10_navigate_silent_witness :
    truthyStr TrajectoryRating.start.videoFilename = false ∧
    navigateTrajectory TrajectoryRating.start (-1) = NavResult.silent :=
  ⟨by decide,
    c10_navigate_silent_when_video_unset TrajectoryRating.start (-1) (by decide)⟩

end AuraAI
